import Mathlib

/-!
Shallow embedding of `src/api/main.py`, a FastAPI front end over the arXiv
search API.  The embedding covers the query builder `build_arxiv_query`,
the result normalizer in `get_arxiv_full_metadata`, the HTML generator
`generate_styled_html` (its dynamic structure), and the `papers` endpoint.

Python strings are modelled as Lean `String`s; Python `datetime` values as a
record of year/month/day; Python's raising of exceptions as `Except String`.
The external arXiv client (`arxiv.Client().results(...)`) is an opaque
upstream, modelled as a function parameter producing either a list of raw
results or an error.
-/

namespace ArxivApp

/-! ### Python string primitives

Python `str.strip()`, `str.replace`, `str.split` and `html.escape` are
re-implemented over `List Char` with structural recursion so that they
evaluate by kernel reduction.  They follow CPython semantics: `replace` and
`split` scan left to right over non-overlapping occurrences of the pattern.
-/

/-- The whitespace characters stripped by Python `str.strip()` (ASCII set). -/
def pyIsSpace (c : Char) : Bool :=
  c = ' ' || c = '\t' || c = '\n' || c = '\r' || c = '\x0b' || c = '\x0c'

/-- Python `s.strip()`: remove leading and trailing whitespace. -/
def pyStrip (s : String) : String :=
  String.mk (((s.toList.dropWhile pyIsSpace).reverse.dropWhile pyIsSpace).reverse)

/-- Scanner for Python `str.replace`: `skip` counts characters still inside a
matched occurrence of the pattern; at `skip = 0` the pattern is tested at the
current position and, on a match, the replacement is emitted and the matched
region skipped. -/
def replaceGo (pat rep : List Char) : Nat → List Char → List Char
  | n+1, _ :: rest => replaceGo pat rep n rest
  | _, [] => []
  | 0, c :: rest =>
    if pat.isPrefixOf (c :: rest) then
      rep ++ replaceGo pat rep (pat.length - 1) rest
    else
      c :: replaceGo pat rep 0 rest

/-- Python `s.replace(pat, rep)` for a non-empty pattern. -/
def pyReplace (s pat rep : String) : String :=
  String.mk (replaceGo pat.toList rep.toList 0 s.toList)

/-- Scanner for Python `str.split(sep)`: `cur` is the current segment in
reverse; `skip` counts characters still inside a matched separator. -/
def splitGo (pat : List Char) : Nat → List Char → List Char → List (List Char)
  | n+1, cur, _ :: rest => splitGo pat n cur rest
  | _, cur, [] => [cur.reverse]
  | 0, cur, c :: rest =>
    if pat.isPrefixOf (c :: rest) then
      cur.reverse :: splitGo pat (pat.length - 1) [] rest
    else
      splitGo pat 0 (c :: cur) rest

/-- Python `s.split(sep)` for a non-empty separator. -/
def pySplit (s sep : String) : List String :=
  (splitGo sep.toList 0 [] s.toList).map String.mk

/-- Python `html.escape(s)` (quote=True): `&`, `<`, `>`, `"`, `'` become
character references, ampersand first. -/
def html_escape (s : String) : String :=
  pyReplace (pyReplace (pyReplace (pyReplace (pyReplace s "&" "&amp;")
    "<" "&lt;") ">" "&gt;") "\"" "&quot;") "\x27" "&#x27;"

/-! ### Query builder (src/api/main.py, `build_arxiv_query`, lines 69-91) -/

/-- `build_arxiv_query(text_query, categories)`:
if `categories` is falsy (empty) return `text_query`; otherwise join
`cat:{c}` with `" OR "` and return `f"({cats}) AND all:{text_query}"`. -/
def build_arxiv_query (text_query : String) (categories : List String) : String :=
  if categories = [] then
    text_query
  else
    let cats := String.intercalate " OR " (categories.map (fun c => "cat:" ++ c))
    "(" ++ cats ++ ") AND all:" ++ text_query

/-! ### Data model for raw arXiv results

One raw record as yielded by `arxiv.Client().results(search)`.  Fields that
can be absent or malformed on a hypothetical record are `Option`s:
`none` models Python `None` (`None.strip()` raises `AttributeError`;
comparing `None` in a sort raises `TypeError`; `None` is falsy for
`result.doi or ...`). -/

/-- Python `datetime`: only the date components matter to this program;
comparison is lexicographic on (year, month, day). -/
structure PyDatetime where
  year : Nat
  month : Nat
  day : Nat
deriving DecidableEq, Repr

/-- Python `datetime` comparison `a <= b` (lexicographic). -/
def PyDatetime.le (a b : PyDatetime) : Bool :=
  a.year < b.year ||
    (a.year = b.year && (a.month < b.month ||
      (a.month = b.month && a.day ≤ b.day)))

/-- A raw result record from the upstream arXiv client. -/
structure RawResult where
  title : Option String
  authors : List String
  summary : Option String
  entry_id : String
  doi : Option String
  categories : List String
  published : Option PyDatetime
deriving DecidableEq, Repr

/-- A normalized paper dictionary before the final date-formatting pass:
`Published` still holds the raw timestamp (lines 144-152 of main.py). -/
structure PaperPre where
  Title : String
  Authors : String
  Abstract : String
  URL : String
  DOI : String
  Categories : String
  Published : Option PyDatetime
deriving DecidableEq, Repr

/-- A fully normalized paper dictionary: `Published` is the formatted
string (or the sentinel "Unknown"). -/
structure Paper where
  Title : String
  Authors : String
  Abstract : String
  URL : String
  DOI : String
  Categories : String
  Published : String
deriving DecidableEq, Repr

/-! ### Result normalizer (src/api/main.py, `get_arxiv_full_metadata`) -/

/-- Lines 140-142: `if len(authors) > 1: authors[-2] += " & " + authors[-1];
authors.pop()` — join the last two names into one entry. -/
def collapseAuthors (authors : List String) : List String :=
  match authors.reverse with
  | last :: secondLast :: rest => rest.reverse ++ [secondLast ++ " & " ++ last]
  | _ => authors

/-- Python `x.strip()` where `x` may be `None`: `None.strip()` raises
`AttributeError`. -/
def pyStripOpt : Option String → Except String String
  | none => .error "AttributeError: NoneType object has no attribute strip"
  | some s => .ok (pyStrip s)

/-- Python `result.doi or fallback`: `doi` if it is neither `None` nor the
empty string (falsy), else `fallback`. -/
def pyOrStr (doi : Option String) (fallback : String) : String :=
  match doi with
  | none => fallback
  | some s => if s = "" then fallback else s

/-- Line 149 fallback: `result.entry_id.split("abs/")[-1]`. -/
def splitAbsLast (entry_id : String) : String :=
  (pySplit entry_id "abs/").getLastD ""

/-- Lines 139-152: build the paper dictionary for one raw record.  Fails
(raises) when `title` or `summary` is `None`. -/
def normalizeOne (r : RawResult) : Except String PaperPre := do
  let title ← pyStripOpt r.title
  let abstract ← pyStripOpt r.summary
  .ok {
    Title := title
    Authors := String.intercalate ", " (collapseAuthors r.authors)
    Abstract := abstract
    URL := pyReplace (pyReplace r.entry_id "http:" "https:") "abs" "pdf"
    DOI := pyOrStr r.doi (splitAbsLast r.entry_id)
    Categories := String.intercalate ", " r.categories
    Published := r.published }

/-- The `papers.append(...)` loop of lines 138-152: each record is
normalized in turn and an exception aborts the whole loop. -/
def mapExcept (f : α → Except String β) : List α → Except String (List β)
  | [] => .ok []
  | a :: as =>
    match f a with
    | .error e => .error e
    | .ok b =>
      match mapExcept f as with
      | .error e => .error e
      | .ok bs => .ok (b :: bs)

/-- Sort-key comparison `q.Published >= p.Published` used by the descending
insertion below.  Only invoked on records whose keys are comparable
(both `some`); `pySortPapers` raises before any `none` key is compared. -/
def pubGe (q p : Option PyDatetime) : Bool :=
  match q, p with
  | some a, some b => PyDatetime.le b a
  | _, _ => false

/-- Stable descending insertion by publication key. -/
def insertDesc (p : PaperPre) : List PaperPre → List PaperPre
  | [] => [p]
  | q :: qs => if pubGe q.Published p.Published then q :: insertDesc p qs else p :: q :: qs

/-- Stable descending sort by publication key (the order CPython's stable
`list.sort(key=..., reverse=True)` produces on comparable keys). -/
def sortDesc : List PaperPre → List PaperPre
  | [] => []
  | p :: ps => insertDesc p (sortDesc ps)

/-- Line 154: `papers.sort(key=lambda x: x["Published"], reverse=True)`.
CPython's Timsort compares every element of a list of length >= 2 at least
once, and any comparison involving `None` (against `None` or a `datetime`)
raises `TypeError`; a list of length <= 1 performs no comparison.  So: a
short list is returned unchanged, a longer list sorts iff every key is a
`datetime`. -/
def pySortPapers (papers : List PaperPre) : Except String (List PaperPre) :=
  if papers.length ≤ 1 then .ok papers
  else if papers.all (fun p => p.Published.isSome) then .ok (sortDesc papers)
  else .error "TypeError: comparison not supported between datetime and NoneType"

/-- `strftime("%B %d, %Y")` month names. -/
def monthName : Nat → String
  | 1 => "January" | 2 => "February" | 3 => "March" | 4 => "April"
  | 5 => "May" | 6 => "June" | 7 => "July" | 8 => "August"
  | 9 => "September" | 10 => "October" | 11 => "November" | 12 => "December"
  | _ => ""

/-- `%d`: zero-padded day of month. -/
def pad2 (n : Nat) : String :=
  if n < 10 then "0" ++ toString n else toString n

/-- `d.strftime("%B %d, %Y")`, e.g. "March 03, 2024". -/
def strftimeBDY (d : PyDatetime) : String :=
  monthName d.month ++ " " ++ pad2 d.day ++ ", " ++ toString d.year

/-- Lines 156-160: `try: p["Published"] = p["Published"].strftime(...)
except Exception: p["Published"] = "Unknown"`.  On a real `datetime` the
format succeeds; on `None` the attribute access raises and is caught. -/
def formatPub (p : PaperPre) : Paper :=
  { Title := p.Title, Authors := p.Authors, Abstract := p.Abstract
    URL := p.URL, DOI := p.DOI, Categories := p.Categories
    Published :=
      match p.Published with
      | some d => strftimeBDY d
      | none => "Unknown" }

/-- Lines 136-154 of `get_arxiv_full_metadata`: build the paper
dictionaries, then sort by the raw `Published` key descending. -/
def normalize_pre (results : List RawResult) : Except String (List PaperPre) :=
  match mapExcept normalizeOne results with
  | .error e => .error e
  | .ok papers => pySortPapers papers

/-- The whole normalization pipeline of `get_arxiv_full_metadata`
(lines 136-162): build the paper dictionaries, sort by raw `Published`
descending, then format the dates. -/
def normalize_results (results : List RawResult) : Except String (List Paper) :=
  match normalize_pre results with
  | .error e => .error e
  | .ok sorted => .ok (sorted.map formatPub)

/-- The opaque upstream arXiv client: query string and `max_results` to
either a list of raw records or a raised exception. -/
def Upstream : Type := String → Nat → Except String (List RawResult)

/-- `get_arxiv_full_metadata(query_term, categories, max_results)`
(lines 95-162): build the query, fetch from the upstream client, normalize.
An upstream exception propagates (there is no handler in the function). -/
def get_arxiv_full_metadata (upstream : Upstream) (query_term : String)
    (categories : List String) (max_results : Nat) : Except String (List Paper) :=
  match upstream (build_arxiv_query query_term categories) max_results with
  | .error e => .error e
  | .ok results => normalize_results results

/-! ### HTML generation (src/api/main.py, `generate_styled_html`) -/

/-- The static category catalog `ARXIV_CATEGORIES` (lines 12-68):
domain name to list of (code, label). -/
def ARXIV_CATEGORIES : List (String × List (String × String)) :=
  [("Computer Science",
    [("cs.AI", "Artificial Intelligence"), ("cs.LG", "Machine Learning"),
     ("cs.CV", "Computer Vision"), ("cs.CL", "NLP"), ("cs.RO", "Robotics"),
     ("cs.DB", "Databases"), ("cs.DS", "Algorithms"), ("cs.CR", "Security"),
     ("cs.OS", "Operating Systems"), ("cs.SE", "Software Engineering")]),
   ("Mathematics",
    [("math.CO", "Combinatorics"), ("math.NT", "Number Theory"),
     ("math.AG", "Algebraic Geometry"), ("math.PR", "Probability"),
     ("math.OC", "Optimization & Control"), ("math.ST", "Statistics Theory")]),
   ("Statistics",
    [("stat.ML", "Statistical ML"), ("stat.TH", "Theory"),
     ("stat.ME", "Methodology"), ("stat.AP", "Applications")]),
   ("Physics",
    [("quant-ph", "Quantum Physics"), ("hep-th", "High Energy Theory"),
     ("cond-mat.stat-mech", "Statistical Mechanics"),
     ("astro-ph.CO", "Cosmology"), ("gr-qc", "General Relativity")]),
   ("Quantitative Biology",
    [("q-bio.QM", "Quantitative Methods"), ("q-bio.NC", "Neurons & Cognition"),
     ("q-bio.GN", "Genomics")]),
   ("Quantitative Finance",
    [("q-fin.MF", "Mathematical Finance"), ("q-fin.ST", "Statistical Finance"),
     ("q-fin.PR", "Pricing"), ("q-fin.RM", "Risk Management")]),
   ("Economics",
    [("econ.EM", "Econometrics"), ("econ.TH", "Theory"),
     ("econ.GN", "General Economics")]),
   ("Electrical Engineering & Systems",
    [("eess.SP", "Signal Processing"), ("eess.IV", "Image & Video"),
     ("eess.SY", "Systems & Control"), ("eess.AS", "Audio & Speech")])]

/-- The paper card emitted for one result (lines 459-474 of main.py). -/
def paperCard (p : Paper) : String :=
  "\n<div class=\"paper\">\n    <a href=\"" ++ p.URL ++
  "\" target=\"_blank\" style = \"color: #000000;\n      text-decoration: none;\">\n    <div class=\"authors\"><a href=\"" ++ p.URL ++
  "\" target=\"_blank\" style = \"color: #000000;\n      text-decoration: none;\">" ++ p.Authors ++
  "</a></div>\n    <div class=\"title\">\n        <a href=\"" ++ p.URL ++
  "\" target=\"_blank\" style = \"color: #000000;\n      text-decoration: none;\">" ++ p.Title ++
  "</a>\n    </div>\n    <p class=\"authors\">\n    Categories: " ++ p.Categories ++
  ",  arXiv: <a href=\"" ++ p.URL ++
  "\" target=\"_blank\" style = \"color: #1155cc;\n      text-decoration: none;\">" ++ p.DOI ++
  "</a>, " ++ p.Published ++
  "</p>\n    <p class=\"abstract\">\n        <a href=\"" ++ p.URL ++
  "\" target=\"_blank\" style = \"color: #000000;\n      text-decoration: none;\"><b>Abstract. </b>" ++ p.Abstract ++
  "</a>\n    </p>\n    </a>\n</div>\n"

/-- The dynamic structure of the HTML page returned by
`generate_styled_html`.  The constant CSS/head boilerplate of the template
carries no record data and is not represented; what the claims observe is
the search box value, the checkbox states, the results header (emitted only
under `if search_query:`) and the list of paper cards. -/
structure Page where
  searchValue : String
  checkboxes : List (String × Bool)
  resultsHeader : Option String
  paperCards : List String
deriving DecidableEq, Repr

/-- `generate_styled_html(papers, search_query, selected_cats)`
(lines 165-476): escape the query, render one checkbox per catalog code
(checked iff the code is in `selected_cats`), and — only when
`search_query` is truthy (non-empty) — emit the results header and one card
per paper. -/
def generate_styled_html (papers : List Paper) (search_query : String)
    (selected_cats : List String) : Page :=
  let safe_query := html_escape search_query
  { searchValue := safe_query
    checkboxes :=
      (ARXIV_CATEGORIES.map Prod.snd).flatten.map
        (fun cl => (cl.fst, selected_cats.contains cl.fst))
    resultsHeader :=
      if search_query ≠ "" then
        some ("<h2>Results for “" ++ safe_query ++ "”</h2>")
      else none
    paperCards :=
      if search_query ≠ "" then papers.map paperCard else [] }

/-! ### The endpoint (src/api/main.py, `papers`, lines 479-516) -/

/-- `MAX_PAPERS` (line 9). -/
def MAX_PAPERS : Nat := 50

/-- An HTTP response from the handler: FastAPI wraps the returned HTML in a
200 response. -/
structure Response where
  status : Nat
  page : Page
deriving DecidableEq, Repr

/-- The `papers` endpoint (lines 512-516):
`if query.strip(): results = get_arxiv_full_metadata(query, cat, MAX_PAPERS)`
then `return generate_styled_html(results, query, cat)`.  The handler has no
exception handler, so an upstream exception propagates out of it
(`Except.error`); the surrounding framework is out of scope. -/
def papers_endpoint (upstream : Upstream) (query : String) (cat : List String) :
    Except String Response :=
  if pyStrip query ≠ "" then
    match get_arxiv_full_metadata upstream query cat MAX_PAPERS with
    | .error e => .error e
    | .ok results => .ok { status := 200, page := generate_styled_html results query cat }
  else
    .ok { status := 200, page := generate_styled_html [] query cat }

/-! ### Concrete records used as test inputs -/

/-- A well-formed record published 2024-06-01. -/
def rawJun : RawResult :=
  { title := some "T", authors := ["A"], summary := some "S"
    entry_id := "http://arxiv.org/abs/2406.00001v1", doi := none
    categories := ["cs.LG"], published := some ⟨2024, 6, 1⟩ }

/-- A well-formed record published 2024-01-01. -/
def rawJan : RawResult :=
  { title := some "T2", authors := ["A", "B", "C"], summary := some "S2"
    entry_id := "http://arxiv.org/abs/2401.00002v1", doi := none
    categories := ["cs.AI"], published := some ⟨2024, 1, 1⟩ }

/-- A record whose publication timestamp is missing (`None`). -/
def rawNoDate : RawResult :=
  { title := some "T3", authors := ["A"], summary := some "S3"
    entry_id := "http://arxiv.org/abs/2403.00003v1", doi := none
    categories := ["cs.LG"], published := none }

/-- A record whose title is missing (`None`). -/
def rawNoTitle : RawResult :=
  { title := none, authors := ["A"], summary := some "S4"
    entry_id := "http://arxiv.org/abs/2404.00004v1", doi := none
    categories := ["cs.LG"], published := some ⟨2024, 4, 1⟩ }

/-- A record carrying a DOI. -/
def rawDoi : RawResult :=
  { title := some "T5", authors := ["A"], summary := some "S5"
    entry_id := "http://arxiv.org/abs/2405.00005v1", doi := some "10.1000/x5"
    categories := ["cs.LG"], published := some ⟨2024, 5, 1⟩ }

/-- The normalized (pre-formatting) form of `rawJun`. -/
def preJun : PaperPre :=
  { Title := "T", Authors := "A", Abstract := "S"
    URL := "https://arxiv.org/pdf/2406.00001v1", DOI := "2406.00001v1"
    Categories := "cs.LG", Published := some ⟨2024, 6, 1⟩ }

/-- The normalized (pre-formatting) form of `rawJan`. -/
def preJan : PaperPre :=
  { Title := "T2", Authors := "A, B & C", Abstract := "S2"
    URL := "https://arxiv.org/pdf/2401.00002v1", DOI := "2401.00002v1"
    Categories := "cs.AI", Published := some ⟨2024, 1, 1⟩ }

/-- The normalized (pre-formatting) form of `rawDoi`. -/
def preDoi : PaperPre :=
  { Title := "T5", Authors := "A", Abstract := "S5"
    URL := "https://arxiv.org/pdf/2405.00005v1", DOI := "10.1000/x5"
    Categories := "cs.LG", Published := some ⟨2024, 5, 1⟩ }

/-- The normalized (pre-formatting) form of `rawNoDate`. -/
def preNoDate : PaperPre :=
  { Title := "T3", Authors := "A", Abstract := "S3"
    URL := "https://arxiv.org/pdf/2403.00003v1", DOI := "2403.00003v1"
    Categories := "cs.LG", Published := none }

/-- An upstream client that always raises. -/
def failingUpstream (e : String) : Upstream := fun _ _ => .error e

/-! ### Helper lemmas -/

theorem pubGe_trans {a b c : Option PyDatetime} (hab : pubGe a b = true)
    (hbc : pubGe b c = true) : pubGe a c = true := by
  rcases a with _ | x <;> rcases b with _ | y <;> rcases c with _ | z <;>
    simp_all [pubGe, PyDatetime.le]
  omega

theorem pubGe_total {a b : Option PyDatetime} (ha : a.isSome) (hb : b.isSome)
    (h : ¬ pubGe a b = true) : pubGe b a = true := by
  rcases a with _ | x
  · simp at ha
  · rcases b with _ | y
    · simp at hb
    · simp only [pubGe, PyDatetime.le] at h ⊢
      rcases x with ⟨xy, xm, xd⟩
      rcases y with ⟨yy, ym, yd⟩
      simp_all
      omega

theorem mem_insertDesc {p x : PaperPre} {l : List PaperPre}
    (h : x ∈ insertDesc p l) : x = p ∨ x ∈ l := by
  induction l with
  | nil => simpa [insertDesc] using h
  | cons q qs ih =>
    by_cases hq : pubGe q.Published p.Published = true
    · simp only [insertDesc, hq, if_pos] at h
      rcases List.mem_cons.mp h with rfl | h'
      · exact Or.inr (List.mem_cons_self ..)
      · rcases ih h' with h'' | h''
        · exact Or.inl h''
        · exact Or.inr (List.mem_cons_of_mem _ h'')
    · simp only [insertDesc, hq, if_neg, not_false_iff] at h
      rcases List.mem_cons.mp h with rfl | h'
      · exact Or.inl rfl
      · exact Or.inr h'

theorem insertDesc_sorted {p : PaperPre} {l : List PaperPre}
    (hp : p.Published.isSome) (hl : ∀ x ∈ l, x.Published.isSome)
    (h : l.Pairwise (fun a b => pubGe a.Published b.Published = true)) :
    (insertDesc p l).Pairwise (fun a b => pubGe a.Published b.Published = true) := by
  induction l with
  | nil => simp [insertDesc]
  | cons q qs ih =>
    rcases List.pairwise_cons.mp h with ⟨hq_all, hqs⟩
    by_cases hq : pubGe q.Published p.Published = true
    · simp only [insertDesc, hq, if_pos]
      refine List.pairwise_cons.mpr ⟨?_, ?_⟩
      · intro x hx
        rcases mem_insertDesc hx with rfl | hx'
        · exact hq
        · exact hq_all x hx'
      · exact ih (fun x hx => hl x (List.mem_cons_of_mem _ hx)) hqs
    · simp only [insertDesc, hq, if_neg, not_false_iff]
      have hpq : pubGe p.Published q.Published = true :=
        pubGe_total (hl q (List.mem_cons_self ..)) hp hq
      refine List.pairwise_cons.mpr ⟨?_, h⟩
      intro x hx
      rcases List.mem_cons.mp hx with rfl | hx'
      · exact hpq
      · exact pubGe_trans hpq (hq_all x hx')

theorem mem_sortDesc {x : PaperPre} {l : List PaperPre}
    (h : x ∈ sortDesc l) : x ∈ l := by
  induction l with
  | nil => simp [sortDesc] at h
  | cons p ps ih =>
    simp only [sortDesc] at h
    rcases mem_insertDesc h with rfl | h'
    · exact List.mem_cons_self ..
    · exact List.mem_cons_of_mem _ (ih h')

theorem sortDesc_sorted {l : List PaperPre}
    (hl : ∀ x ∈ l, x.Published.isSome) :
    (sortDesc l).Pairwise (fun a b => pubGe a.Published b.Published = true) := by
  induction l with
  | nil => simp [sortDesc]
  | cons p ps ih =>
    simp only [sortDesc]
    exact insertDesc_sorted (hl p (List.mem_cons_self ..))
      (fun x hx => hl x (List.mem_cons_of_mem _ (mem_sortDesc hx)))
      (ih (fun x hx => hl x (List.mem_cons_of_mem _ hx)))

theorem mapExcept_ok_mem {α β : Type} (f : α → Except String β) :
    ∀ {l : List α} {bs : List β}, mapExcept f l = .ok bs →
      ∀ a ∈ l, ∃ b, f a = .ok b := by
  intro l
  induction l with
  | nil => simp
  | cons x xs ih =>
    intro bs h a ha
    unfold mapExcept at h
    cases hfx : f x with
    | error e => simp [hfx] at h
    | ok b =>
      cases hrec : mapExcept f xs with
      | error e => simp [hfx, hrec] at h
      | ok bs' =>
        rcases List.mem_cons.mp ha with rfl | ha'
        · exact ⟨b, hfx⟩
        · exact ih hrec a ha'

theorem normalizeOne_ok {r : RawResult} (ht : r.title.isSome)
    (hs : r.summary.isSome) :
    ∃ p, normalizeOne r = .ok p ∧ p.Published = r.published ∧
      p.DOI = pyOrStr r.doi (splitAbsLast r.entry_id) := by
  rcases Option.isSome_iff_exists.mp ht with ⟨t, htt⟩
  rcases Option.isSome_iff_exists.mp hs with ⟨s, hss⟩
  refine ⟨{ Title := pyStrip t
            Authors := String.intercalate ", " (collapseAuthors r.authors)
            Abstract := pyStrip s
            URL := pyReplace (pyReplace r.entry_id "http:" "https:") "abs" "pdf"
            DOI := pyOrStr r.doi (splitAbsLast r.entry_id)
            Categories := String.intercalate ", " r.categories
            Published := r.published }, ?_, rfl, rfl⟩
  simp [normalizeOne, pyStripOpt, htt, hss, Bind.bind, Except.bind]

theorem mapExcept_normalizeOne_ok {rs : List RawResult}
    (h : ∀ r ∈ rs, r.title.isSome ∧ r.summary.isSome) :
    ∃ l, mapExcept normalizeOne rs = .ok l ∧
      l.map (fun p => p.Published) = rs.map (fun r => r.published) := by
  induction rs with
  | nil => exact ⟨[], rfl, rfl⟩
  | cons r rest ih =>
    obtain ⟨ht, hs⟩ := h r (List.mem_cons_self ..)
    obtain ⟨p, hp, hpub, _⟩ := normalizeOne_ok ht hs
    obtain ⟨l, hl, hmap⟩ := ih (fun x hx => h x (List.mem_cons_of_mem _ hx))
    refine ⟨p :: l, ?_, ?_⟩
    · unfold mapExcept
      rw [hp, hl]
    · simp [hmap, hpub]

theorem normalizeOne_inv {r : RawResult} {p : PaperPre}
    (h : normalizeOne r = .ok p) :
    p.Published = r.published ∧
      p.DOI = pyOrStr r.doi (splitAbsLast r.entry_id) := by
  cases htt : r.title with
  | none => simp [normalizeOne, pyStripOpt, htt, Bind.bind, Except.bind] at h
  | some t =>
    cases hss : r.summary with
    | none => simp [normalizeOne, pyStripOpt, htt, hss, Bind.bind, Except.bind] at h
    | some s =>
      simp [normalizeOne, pyStripOpt, htt, hss, Bind.bind, Except.bind] at h
      rw [← h]
      exact ⟨rfl, rfl⟩

theorem normalizeOne_error_none {r : RawResult}
    (h : r.title = none ∨ r.summary = none) (p : PaperPre) :
    normalizeOne r ≠ .ok p := by
  intro hok
  rcases h with ht | hs
  · simp [normalizeOne, pyStripOpt, ht, Bind.bind, Except.bind] at hok
  · cases htt : r.title with
    | none => simp [normalizeOne, pyStripOpt, htt, Bind.bind, Except.bind] at hok
    | some t => simp [normalizeOne, pyStripOpt, htt, hs, Bind.bind, Except.bind] at hok

theorem mapExcept_published : ∀ {rs : List RawResult} {l : List PaperPre},
    mapExcept normalizeOne rs = .ok l →
      l.map (fun p => p.Published) = rs.map (fun r => r.published) := by
  intro rs
  induction rs with
  | nil =>
    intro l h
    unfold mapExcept at h
    cases h
    rfl
  | cons r rest ih =>
    intro l h
    unfold mapExcept at h
    cases hr : normalizeOne r with
    | error e => simp [hr] at h
    | ok p =>
      cases hrest : mapExcept normalizeOne rest with
      | error e => simp [hr, hrest] at h
      | ok l' =>
        simp only [hr, hrest] at h
        cases h
        simp [(normalizeOne_inv hr).1, ih hrest]

theorem normalize_pre_ok_sorted {rs : List RawResult} {s : List PaperPre}
    (h : normalize_pre rs = .ok s) :
    s.Pairwise (fun p q => pubGe p.Published q.Published = true) := by
  unfold normalize_pre at h
  cases hm : mapExcept normalizeOne rs with
  | error e => simp [hm] at h
  | ok l =>
    simp only [hm] at h
    unfold pySortPapers at h
    by_cases hlen : l.length ≤ 1
    · rw [if_pos hlen] at h
      injection h with h'
      subst h'
      match l, hlen with
      | [], _ => exact List.Pairwise.nil
      | [x], _ => exact List.pairwise_singleton ..
    · rw [if_neg hlen] at h
      by_cases hall : l.all (fun p => p.Published.isSome) = true
      · rw [if_pos hall] at h
        injection h with h'
        subst h'
        exact sortDesc_sorted (List.all_eq_true.mp hall)
      · rw [if_neg hall] at h
        cases h

/-! ### Claim theorems -/

/-- C1: for every text query and every non-empty list of category codes,
`build_arxiv_query` returns `"(cat:C1 OR cat:C2 OR ...) AND all:<text>"`,
with the categories in caller-given order. -/
theorem buildQuery_withCategories (text : String) (cats : List String)
    (h : cats ≠ []) :
    build_arxiv_query text cats =
      "(" ++ String.intercalate " OR " (cats.map (fun c => "cat:" ++ c)) ++
        ") AND all:" ++ text := by
  simp [build_arxiv_query, h]

/-- C1 witness: the spec's worked example
`buildQuery("x", ["cs.LG","cs.AI"]) = "(cat:cs.LG OR cat:cs.AI) AND all:x"`. -/
theorem buildQuery_withCategories_witness :
    build_arxiv_query "x" ["cs.LG", "cs.AI"] = "(cat:cs.LG OR cat:cs.AI) AND all:x" :=
  (buildQuery_withCategories "x" ["cs.LG", "cs.AI"] (by decide)).trans (by decide)

/-- C2 counterexample: with an empty category list the builder returns the
input text as-is, NOT trimmed: on `" x "` it returns `" x "`, while the
trimmed input is `"x"`. -/
theorem buildQuery_noTrim_cex :
    build_arxiv_query " x " [] = " x " ∧ pyStrip " x " = "x" ∧
      build_arxiv_query " x " [] ≠ pyStrip " x " := by
  decide

/-- C2 (amended): with an empty category list the builder returns the input
text unchanged (no trimming); in particular `buildQuery("x", []) = "x"`. -/
theorem buildQuery_emptyCats (text : String) :
    build_arxiv_query text [] = text := by
  simp [build_arxiv_query]

/-- C3: with more than one author the last two names are joined with
`" & "` into one entry (in place of the second-to-last) and the last entry
is removed, leaving N-1 entries in original order, so `["A","B","C"]`
displays as `"A, B & C"`; 0 or 1 authors are left unchanged. -/
theorem collapseAuthors_spec :
    (∀ (init : List String) (a b : String),
        collapseAuthors (init ++ [a, b]) = init ++ [a ++ " & " ++ b]) ∧
    (∀ l : List String, l.length ≤ 1 → collapseAuthors l = l) ∧
    String.intercalate ", " (collapseAuthors ["A", "B", "C"]) = "A, B & C" := by
  refine ⟨?_, ?_, by decide⟩
  · intro init a b
    simp [collapseAuthors, List.reverse_append]
  · intro l h
    match l with
    | [] => rfl
    | [x] => rfl
    | x :: y :: xs => simp only [List.length_cons] at h; omega

/-- C3 witness: `["A","B","C"]` collapses to `["A","B & C"]` and `["A"]`
stays unchanged. -/
theorem collapseAuthors_spec_witness :
    collapseAuthors ["A", "B", "C"] = ["A", "B & C"] ∧
      collapseAuthors ["A"] = ["A"] := by
  constructor
  · have h := collapseAuthors_spec.1 ["A"] "B" "C"
    simpa using h
  · exact collapseAuthors_spec.2.1 ["A"] (by decide)

/-- C6: for the empty query the endpoint returns a 200 page with zero paper
entries, and the result does not depend on the upstream client (no upstream
call is made). -/
theorem emptyQuery_endpoint (u : Upstream) (cat : List String) :
    papers_endpoint u "" cat =
      .ok { status := 200, page := generate_styled_html [] "" cat } ∧
    (generate_styled_html [] "" cat).paperCards = [] ∧
    ∀ u' : Upstream, papers_endpoint u' "" cat = papers_endpoint u "" cat :=
  ⟨rfl, rfl, fun _ => rfl⟩

/-- C7 counterexample: when the upstream client raises, the `papers` handler
— which contains no exception handling — propagates the exception instead of
returning an empty-result 200 page or a 500 page of its own. -/
theorem upstreamFailure_cex :
    papers_endpoint (failingUpstream "HTTPError: 503 from arxiv.org") "x" [] =
      .error "HTTPError: 503 from arxiv.org" := rfl

/-- C7 (amended): for every upstream exception and every non-whitespace
query, the `papers` handler propagates the exception unhandled; any HTTP
response the client sees is produced by the out-of-scope framework, not by
this repository's code. -/
theorem upstreamFailure_propagates (e q : String) (cat : List String)
    (h : pyStrip q ≠ "") :
    papers_endpoint (failingUpstream e) q cat = .error e := by
  simp [papers_endpoint, h, get_arxiv_full_metadata, failingUpstream]

/-- C7 witness: a concrete upstream failure propagating through the
handler. -/
theorem upstreamFailure_propagates_witness :
    papers_endpoint (failingUpstream "ConnectionError") "quantum" [] =
      .error "ConnectionError" :=
  upstreamFailure_propagates "ConnectionError" "quantum" [] (by decide)

/-- C4: whenever the normalizer's sort stage succeeds, the output list is
the date-formatted image of a list sorted by publication date descending;
and on the concrete pair dated 2024-01-01 / 2024-06-01 (in that input
order) the June record comes first. -/
theorem normalize_sortedDesc :
    (∀ (rs : List RawResult) (s : List PaperPre), normalize_pre rs = .ok s →
        normalize_results rs = .ok (s.map formatPub) ∧
        s.Pairwise (fun p q => pubGe p.Published q.Published = true)) ∧
    normalize_results [rawJan, rawJun] =
      .ok [formatPub preJun, formatPub preJan] := by
  constructor
  · intro rs s h
    exact ⟨by simp [normalize_results, h], normalize_pre_ok_sorted h⟩
  · rfl

/-- C4 witness: on the Jan/Jun pair the pipeline returns the formatted image
of `[preJun, preJan]`, which is pairwise descending. -/
theorem normalize_sortedDesc_witness :
    normalize_results [rawJan, rawJun] = .ok ([preJun, preJan].map formatPub) ∧
    [preJun, preJan].Pairwise (fun p q => pubGe p.Published q.Published = true) :=
  normalize_sortedDesc.1 [rawJan, rawJun] [preJun, preJan] rfl

/-- C5 counterexample: mixing a record with a missing publication timestamp
into a batch with a dated record raises in the sort of line 154 (Python
cannot compare `None` with a `datetime`) before the "Unknown" substitution
of lines 156-160 is ever reached. -/
theorem publishedUnknown_cex :
    normalize_results [rawNoDate, rawJun] =
      .error "TypeError: comparison not supported between datetime and NoneType" := rfl

/-- C5 (amended): a record with a missing publication timestamp is
normalized to `Published = "Unknown"` without raising only when the sort
performs no comparison on its key (a batch of one record); a batch of two
or more records that contains a missing timestamp raises a TypeError in
the sort, whether or not valid dates are mixed in. -/
theorem publishedUnknown :
    (∀ (r : RawResult) (p : PaperPre), normalizeOne r = .ok p →
        r.published = none →
        normalize_results [r] = .ok [formatPub p] ∧
        (formatPub p).Published = "Unknown") ∧
    (∀ rs : List RawResult, 2 ≤ rs.length →
        (∃ r ∈ rs, r.published = none) →
        ∀ l, normalize_results rs ≠ .ok l) := by
  constructor
  · intro r p hp hnone
    have hm : mapExcept normalizeOne [r] = .ok [p] := by
      simp [mapExcept, hp]
    have hpre : normalize_pre [r] = .ok [p] := by
      simp [normalize_pre, hm, pySortPapers]
    refine ⟨by simp [normalize_results, hpre], ?_⟩
    have hpub := (normalizeOne_inv hp).1
    simp [formatPub, hpub, hnone]
  · intro rs hlen hnone l hok
    unfold normalize_results at hok
    cases hpre : normalize_pre rs with
    | error e => rw [hpre] at hok; cases hok
    | ok s =>
      unfold normalize_pre at hpre
      cases hm : mapExcept normalizeOne rs with
      | error e => simp [hm] at hpre
      | ok lp =>
        simp only [hm] at hpre
        have hmap := mapExcept_published hm
        have hlenl : lp.length = rs.length := by
          have hc := congrArg List.length hmap
          simpa using hc
        obtain ⟨r, hr, hrnone⟩ := hnone
        have hmem : (none : Option PyDatetime) ∈ lp.map (fun p => p.Published) := by
          rw [hmap]
          exact List.mem_map.mpr ⟨r, hr, by rw [hrnone]⟩
        obtain ⟨p, hpmem, hpnone⟩ := List.mem_map.mp hmem
        have hallneg : ¬ lp.all (fun p => p.Published.isSome) = true := by
          intro hall
          have hps := List.all_eq_true.mp hall p hpmem
          rw [hpnone] at hps
          simp at hps
        unfold pySortPapers at hpre
        rw [if_neg (by omega), if_neg hallneg] at hpre
        cases hpre

/-- C5 witness: a lone record with a missing timestamp yields "Unknown"
without raising, and the mixed two-record batch is not normalized to any
output list. -/
theorem publishedUnknown_witness :
    (normalize_results [rawNoDate] = .ok [formatPub preNoDate] ∧
      (formatPub preNoDate).Published = "Unknown") ∧
    normalize_results [rawNoDate, rawJun] ≠ .ok [] :=
  ⟨publishedUnknown.1 rawNoDate preNoDate rfl rfl,
   publishedUnknown.2 [rawNoDate, rawJun] (by decide) (by decide) []⟩

/-- C8 counterexample: a record with a missing title is not recovered with
a "No title" default: `None.strip()` raises, the whole normalization fails,
and the record is not included in any output. -/
theorem missingField_cex :
    normalize_results [rawNoTitle] =
      .error "AttributeError: NoneType object has no attribute strip" := rfl

/-- C8 (amended): the only field-level default in the normalizer is
"Unknown" for the publication date; a record with a missing title or a
missing abstract raises inside the loop, the error propagates, and no
record of the batch is returned — the defaults "No title" and
"No abstract available" do not exist in this code. -/
theorem missingField_raises :
    ∀ (rs : List RawResult) (r : RawResult), r ∈ rs →
      r.title = none ∨ r.summary = none →
      ∀ l, normalize_results rs ≠ .ok l := by
  intro rs r hmem hnone l hok
  unfold normalize_results at hok
  cases hpre : normalize_pre rs with
  | error e => rw [hpre] at hok; cases hok
  | ok s =>
    unfold normalize_pre at hpre
    cases hm : mapExcept normalizeOne rs with
    | error e => simp [hm] at hpre
    | ok lp =>
      obtain ⟨p, hp⟩ := mapExcept_ok_mem normalizeOne hm r hmem
      exact normalizeOne_error_none hnone p hp

/-- C8 witness: the batch containing the title-less record is not
normalized to any output list. -/
theorem missingField_raises_witness :
    normalize_results [rawNoTitle] ≠ .ok [] :=
  missingField_raises [rawNoTitle] rawNoTitle (by decide) (Or.inl rfl) []

/-- C9: the normalized display identifier is the record's DOI when one is
present (a non-`None`, non-empty DOI string — Python truthiness of
`result.doi`), and otherwise is `entry_id.split("abs/")[-1]`, the part of
the entry identifier after the last "abs/". -/
theorem externalId_spec :
    ∀ (r : RawResult) (p : PaperPre), normalizeOne r = .ok p →
      (∀ s, r.doi = some s → s ≠ "" → p.DOI = s) ∧
      ((r.doi = none ∨ r.doi = some "") → p.DOI = splitAbsLast r.entry_id) := by
  intro r p hp
  have hdoi := (normalizeOne_inv hp).2
  constructor
  · intro s hs hne
    rw [hdoi, hs]
    simp [pyOrStr, hne]
  · intro h
    rcases h with h | h
    · rw [hdoi, h]
      rfl
    · rw [hdoi, h]
      simp [pyOrStr]

/-- C9 witness: the DOI-carrying record keeps its DOI; the DOI-less record
falls back to the trailing segment of its entry identifier. -/
theorem externalId_spec_witness :
    preDoi.DOI = "10.1000/x5" ∧
      preJun.DOI = splitAbsLast rawJun.entry_id ∧
      splitAbsLast rawJun.entry_id = "2406.00001v1" :=
  ⟨(externalId_spec rawDoi preDoi rfl).1 "10.1000/x5" rfl (by decide),
   (externalId_spec rawJun preJun rfl).2 (Or.inl rfl), by decide⟩

/-- C10 counterexample: for the whitespace-only query `" "` the endpoint
makes no upstream call and shows zero papers, but — unlike the empty-query
page — the results header IS emitted: the handler tests `query.strip()`
while the renderer tests truthiness of the raw query. -/
theorem whitespaceQuery_cex :
    papers_endpoint (failingUpstream "unavailable") " " [] =
      .ok { status := 200, page := generate_styled_html [] " " [] } ∧
    (generate_styled_html [] " " []).resultsHeader =
      some "<h2>Results for “ ”</h2>" ∧
    (generate_styled_html [] "" []).resultsHeader = none := ⟨rfl, rfl, rfl⟩

/-- C10 (amended): for every non-empty query consisting only of whitespace,
no upstream call is made and the page has zero paper entries, but the page
does contain the results header (showing the escaped whitespace query),
unlike the empty-query page. -/
theorem whitespaceQuery_spec (q : String) (cat : List String) (u : Upstream)
    (hne : q ≠ "") (hws : ∀ c ∈ q.toList, pyIsSpace c = true) :
    papers_endpoint u q cat =
      .ok { status := 200, page := generate_styled_html [] q cat } ∧
    (generate_styled_html [] q cat).paperCards = [] ∧
    (generate_styled_html [] q cat).resultsHeader =
      some ("<h2>Results for “" ++ html_escape q ++ "”</h2>") ∧
    ∀ u' : Upstream, papers_endpoint u' q cat = papers_endpoint u q cat := by
  have h1 : q.toList.dropWhile pyIsSpace = [] := by
    rw [List.dropWhile_eq_nil_iff]
    intro x hx
    exact hws x hx
  have hstrip : pyStrip q = "" := by
    unfold pyStrip
    rw [h1]
    rfl
  have hmain : papers_endpoint u q cat =
      .ok { status := 200, page := generate_styled_html [] q cat } := by
    unfold papers_endpoint
    rw [if_neg (by simp [hstrip])]
  refine ⟨hmain, ?_, ?_, ?_⟩
  · simp [generate_styled_html, hne]
  · simp [generate_styled_html, hne]
  · intro u'
    rw [hmain]
    unfold papers_endpoint
    rw [if_neg (by simp [hstrip])]

/-- C10 witness: the single-space query behaves as proved. -/
theorem whitespaceQuery_spec_witness :
    papers_endpoint (failingUpstream "down") " " [] =
      .ok { status := 200, page := generate_styled_html [] " " [] } :=
  (whitespaceQuery_spec " " [] (failingUpstream "down") (by decide) (by decide)).1

end ArxivApp
